import Mathlib

/-!
Shallow embedding of `serve-demo.py`: a static-file development server that
injects fixed CORS/cache headers on every response (class
`CORSHTTPRequestHandler`, function `run_server`, and the `__main__` block),
together with the parts of the Python standard library `http.server` module
the script inherits from (`SimpleHTTPRequestHandler.do_GET` / `do_HEAD`,
`BaseHTTPRequestHandler.send_error`, `send_response`, `log_request`,
`log_error`, `handle_one_request`) as far as the verified properties depend
on them.
-/

namespace ServeDemo

/-- A response header: name and value. -/
abbrev Header := String × String

/-- The four fixed headers the subclass injects (source lines 16-19). -/
def corsHeaders : List Header :=
  [("Access-Control-Allow-Origin", "*"),
   ("Access-Control-Allow-Methods", "GET, POST, PUT, DELETE, OPTIONS"),
   ("Access-Control-Allow-Headers", "Content-Type, Authorization"),
   ("Cache-Control", "no-cache, no-store, must-revalidate")]

/-- CORSHTTPRequestHandler.end_headers: the four fixed headers are appended
to whatever headers the base handler buffered for this response, and then
the base end_headers flushes the buffer, adding no further header. -/
def end_headers (buffered : List Header) : List Header :=
  buffered ++ corsHeaders

/-- HTTP request methods relevant to the demo server. -/
inductive Method
  | GET
  | HEAD
  | POST
  | PUT
  | DELETE
  | OPTIONS
deriving DecidableEq

/-- Text of a method, as it appears in the request line. -/
def methodName : Method → String
  | Method.GET => "GET"
  | Method.HEAD => "HEAD"
  | Method.POST => "POST"
  | Method.PUT => "PUT"
  | Method.DELETE => "DELETE"
  | Method.OPTIONS => "OPTIONS"

/-- An inbound request: method and URL path. -/
structure Request where
  method : Method
  path : String
deriving DecidableEq

/-- The request line, as BaseHTTPRequestHandler.requestline holds it. -/
def requestline (req : Request) : String :=
  methodName req.method ++ " " ++ req.path ++ " HTTP/1.1"

/-- An HTTP response: status code, finalized header list, body bytes. -/
structure Response where
  status : Nat
  headers : List Header
  body : List Nat
deriving DecidableEq

/-- The filesystem tree being served: absolute file path to file bytes. -/
abbrev Fs := List (String × List Nat)

/-- File lookup in the served tree. -/
def lookupFile : Fs → String → Option (List Nat)
  | [], _ => none
  | (q, bs) :: rest, p => if q = p then some bs else lookupFile rest p

/-- Process state a request handler can observe: the working directory set
once at startup by os.chdir. The handlers keep no other mutable state. -/
structure ServerState where
  cwd : String
deriving DecidableEq

/-- SimpleHTTPRequestHandler.translate_path: maps the request path to a path
under the current working directory (percent-decoding and query-string
stripping abstracted away). -/
def translate_path (cwd path : String) : String := cwd ++ path

/-- SimpleHTTPRequestHandler.guess_type for the extensions the demo serves;
unknown extensions map to application/octet-stream. -/
def guess_type (path : String) : String :=
  if path.endsWith ".html" || path.endsWith ".htm" then "text/html"
  else if path.endsWith ".js" then "text/javascript"
  else if path.endsWith ".css" then "text/css"
  else if path.endsWith ".json" then "application/json"
  else if path.endsWith ".png" then "image/png"
  else "application/octet-stream"

/-- Body text of BaseHTTPRequestHandler.send_error's HTML error page
(error_message_format with code and message substituted). -/
def errorPage (code : Nat) (message : String) : String :=
  "<!DOCTYPE HTML><html><head><title>Error response</title></head><body><h1>Error response</h1><p>Error code: "
    ++ toString code ++ "</p><p>Message: " ++ message
    ++ ".</p></body></html>"

/-- Encoding of a string as body bytes (UTF-8 abstracted to code points). -/
def strBytes (s : String) : List Nat :=
  s.toList.map Char.toNat

/-- The error page bytes of a send_error response. -/
def errorBody (code : Nat) (message : String) : List Nat :=
  strBytes (errorPage code message)

/-- BaseHTTPRequestHandler.log_request: the message passed to log_message
for an accepted request (the quoted request line, the code, and the size
argument, which defaults to a dash). -/
def log_request (rline : String) (code : Nat) : String :=
  "\"" ++ rline ++ "\" " ++ toString code ++ " -"

/-- BaseHTTPRequestHandler.log_error: the message passed to log_message when
send_error refuses a request. -/
def log_error (code : Nat) (message : String) : String :=
  "code " ++ toString code ++ ", message " ++ message

/-- BaseHTTPRequestHandler.send_error: logs the error (log_error), sends the
status (send_response, which logs the request line), buffers
Connection/Content-Type/Content-Length, finalizes through the subclass's
end_headers, and writes the HTML error body. Returns the response and the
two log_message payloads in emission order. -/
def send_error (rline : String) (code : Nat) (message : String) :
    Response × List String :=
  ({ status := code,
     headers := end_headers
       [("Connection", "close"),
        ("Content-Type", "text/html;charset=utf-8"),
        ("Content-Length", toString (errorBody code message).length)],
     body := errorBody code message },
   [log_error code message, log_request rline code])

/-- SimpleHTTPRequestHandler.do_GET via send_head: resolve the path against
the working directory; on a hit serve the file bytes with inferred content
type (send_response logs the request line once); on a miss send_error 404.
The modelled filesystem holds plain files only, so directory redirects,
listings and conditional requests do not arise; Server, Date and
Last-Modified headers are time-dependent metadata and are not modelled. -/
def do_GET (cwd : String) (fs : Fs) (rline path : String) :
    Response × List String :=
  match lookupFile fs (translate_path cwd path) with
  | some bs =>
      ({ status := 200,
         headers := end_headers
           [("Content-type", guess_type (translate_path cwd path)),
            ("Content-Length", toString bs.length)],
         body := bs },
       [log_request rline 200])
  | none => send_error rline 404 "File not found"

/-- SimpleHTTPRequestHandler.do_HEAD: as do_GET but no body is written. -/
def do_HEAD (cwd : String) (fs : Fs) (rline path : String) :
    Response × List String :=
  ({ (do_GET cwd fs rline path).1 with body := [] },
   (do_GET cwd fs rline path).2)

/-- CORSHTTPRequestHandler.do_OPTIONS: send_response(200) (which logs the
request line) then end_headers(); no body is written, and neither the
request path nor the filesystem is consulted for the response. -/
def do_OPTIONS (_fs : Fs) (rline : String) (_path : String) :
    Response × List String :=
  ({ status := 200, headers := end_headers [], body := [] },
   [log_request rline 200])

/-- BaseHTTPRequestHandler.handle_one_request dispatch: the do_<METHOD>
handler when the class defines one, otherwise send_error 501 (Unsupported
method). The server state is returned unchanged: no handler mutates it. -/
def handleRequest (s : ServerState) (fs : Fs) (req : Request) :
    (Response × List String) × ServerState :=
  (match req.method with
   | Method.GET => do_GET s.cwd fs (requestline req) req.path
   | Method.HEAD => do_HEAD s.cwd fs (requestline req) req.path
   | Method.OPTIONS => do_OPTIONS fs (requestline req) req.path
   | m => send_error (requestline req) 501
       ("Unsupported method (" ++ methodName m ++ ")"),
   s)

/-- A console line, tagged with the stream it is written to. -/
inductive OutLine
  | stdout (line : String)
  | stderr (line : String)
deriving DecidableEq

/-- CORSHTTPRequestHandler.log_message override: every log payload is
printed to standard output prefixed by the client address and a dash (the
base class would have written to stderr). -/
def log_message (client msg : String) : OutLine :=
  OutLine.stdout (client ++ " - " ++ msg)

/-- Handling one connection: dispatch the request and emit each buffered log
payload through the overridden log_message. -/
def handleConnection (s : ServerState) (fs : Fs) (client : String)
    (req : Request) : Response × ServerState × List OutLine :=
  ((handleRequest s fs req).1.1, (handleRequest s fs req).2,
   ((handleRequest s fs req).1.2).map (log_message client))

/-- Observable process effects of startup, serving, and shutdown. -/
inductive Event
  | chdir (dir : String)
  | bind (port : Int)
  | print (msg : String)
  | serveForever
  | shutdownServer
  | closeSocket
deriving DecidableEq

/-- The startup banner (text abbreviated to its port-bearing lines). -/
def banner (port : Int) : String :=
  "LocumTrueRate Frontend Demo Server\nServer running at: http://localhost:"
    ++ toString port ++ "\nPress Ctrl+C to stop the server."

/-- run_server(port): os.chdir to the script's own directory, bind the
listening socket on ("", port), print the banner, and serve until a
KeyboardInterrupt; on interrupt print the stop notice, call
httpd.shutdown(), and leave the with-block, which closes the listening
socket. `interrupted` says whether the blocking loop ends in a
KeyboardInterrupt — the only way run_server returns. -/
def run_server (scriptDir : String) (port : Int) (interrupted : Bool) :
    List Event :=
  [Event.chdir scriptDir, Event.bind port, Event.print (banner port),
   Event.serveForever] ++
  (if interrupted then
     [Event.print "\n\nServer stopped.", Event.shutdownServer,
      Event.closeSocket]
   else [])

/-- The server state once run_server's os.chdir has run: the working
directory is the script's own directory. -/
def startupState (scriptDir : String) : ServerState :=
  { cwd := scriptDir }

/-- How a process run ends. -/
inductive Termination
  | exitCode (code : Nat)
  | runningForever
deriving DecidableEq

/-- Python int() on the tail of a digit run: digits, with single interior
underscores allowed between digits. `acc` is the value read so far. -/
def pyDigitsAux (acc : Nat) : List Char → Option Nat
  | [] => some acc
  | '_' :: c :: rest =>
      if c.isDigit then pyDigitsAux (acc * 10 + (c.toNat - 48)) rest else none
  | c :: rest =>
      if c.isDigit then pyDigitsAux (acc * 10 + (c.toNat - 48)) rest else none

/-- Python int() digit-run parse: nonempty, must start with a digit. -/
def pyDigits : List Char → Option Nat
  | [] => none
  | c :: rest =>
      if c.isDigit then pyDigitsAux (c.toNat - 48) rest else none

/-- The character list of a string with surrounding whitespace stripped. -/
def stripChars (s : String) : List Char :=
  ((s.toList.dropWhile Char.isWhitespace).reverse.dropWhile
    Char.isWhitespace).reverse

/-- Python int(str) for a decimal literal: surrounding whitespace stripped,
optional sign, then a digit run (non-ASCII digits not modelled). Returns
none exactly where int() raises ValueError. -/
def pythonInt (s : String) : Option Int :=
  match stripChars s with
  | '-' :: rest => (pyDigits rest).map (fun n => -(n : Int))
  | '+' :: rest => (pyDigits rest).map (fun n => (n : Int))
  | cs => (pyDigits cs).map (fun n => (n : Int))

/-- The __main__ block, with argv the arguments after the script name:
port = int(sys.argv[1]) if an argument is present, else 8080, then
run_server(port). An unparseable argument raises ValueError before
run_server is entered, so no process effect happens and the interpreter
exits with status 1; an interrupted serve loop returns normally and the
process exits 0. -/
def mainRun (scriptDir : String) (argv : List String) (interrupted : Bool) :
    List Event × Termination :=
  match argv with
  | [] =>
      (run_server scriptDir 8080 interrupted,
       if interrupted then Termination.exitCode 0
       else Termination.runningForever)
  | a :: _ =>
      match pythonInt a with
      | some p =>
          (run_server scriptDir p interrupted,
           if interrupted then Termination.exitCode 0
           else Termination.runningForever)
      | none => ([], Termination.exitCode 1)

/-- Every header of corsHeaders appears in any finalized header list. -/
lemma mem_end_headers_of_mem_cors (buf : List Header) (h : Header)
    (hm : h ∈ corsHeaders) : h ∈ end_headers buf :=
  List.mem_append.mpr (Or.inr hm)

/-- The headers of a do_GET response are some buffer finalized through the
subclass's end_headers. -/
lemma do_GET_headers_shape (cwd : String) (fs : Fs) (rline path : String) :
    ∃ buf, (do_GET cwd fs rline path).1.headers = end_headers buf := by
  unfold do_GET
  cases lookupFile fs (translate_path cwd path) with
  | some bs => exact ⟨_, rfl⟩
  | none => exact ⟨_, rfl⟩

/-- The headers of every dispatched response are some buffer finalized
through the subclass's end_headers. -/
lemma handleRequest_headers_shape (s : ServerState) (fs : Fs)
    (req : Request) :
    ∃ buf, (handleRequest s fs req).1.1.headers = end_headers buf := by
  obtain ⟨m, p⟩ := req
  cases m
  case GET => exact do_GET_headers_shape s.cwd fs (requestline ⟨Method.GET, p⟩) p
  case HEAD => exact do_GET_headers_shape s.cwd fs (requestline ⟨Method.HEAD, p⟩) p
  case OPTIONS => exact ⟨[], rfl⟩
  case POST => exact ⟨_, rfl⟩
  case PUT => exact ⟨_, rfl⟩
  case DELETE => exact ⟨_, rfl⟩

/-- C1: every HTTP response the server produces — any method, any path, any
filesystem, any status — carries the four fixed headers with exactly the
values `Access-Control-Allow-Origin: *`,
`Access-Control-Allow-Methods: GET, POST, PUT, DELETE, OPTIONS`,
`Access-Control-Allow-Headers: Content-Type, Authorization`, and
`Cache-Control: no-cache, no-store, must-revalidate`. -/
theorem every_response_carries_cors (s : ServerState) (fs : Fs)
    (req : Request) :
    ("Access-Control-Allow-Origin", "*")
        ∈ (handleRequest s fs req).1.1.headers ∧
    ("Access-Control-Allow-Methods", "GET, POST, PUT, DELETE, OPTIONS")
        ∈ (handleRequest s fs req).1.1.headers ∧
    ("Access-Control-Allow-Headers", "Content-Type, Authorization")
        ∈ (handleRequest s fs req).1.1.headers ∧
    ("Cache-Control", "no-cache, no-store, must-revalidate")
        ∈ (handleRequest s fs req).1.1.headers := by
  obtain ⟨buf, hbuf⟩ := handleRequest_headers_shape s fs req
  rw [hbuf]
  refine ⟨?_, ?_, ?_, ?_⟩ <;>
    exact mem_end_headers_of_mem_cors buf _ (by decide)

/-- C2: an OPTIONS request to any path gets status 200, an empty body, the
four fixed headers, and a response independent of the filesystem — the
static file-serving step is never taken. -/
theorem options_short_circuit (s : ServerState) (fs : Fs) (p : String) :
    (handleRequest s fs ⟨Method.OPTIONS, p⟩).1.1.status = 200 ∧
    (handleRequest s fs ⟨Method.OPTIONS, p⟩).1.1.body = [] ∧
    ("Access-Control-Allow-Origin", "*")
        ∈ (handleRequest s fs ⟨Method.OPTIONS, p⟩).1.1.headers ∧
    ("Access-Control-Allow-Methods", "GET, POST, PUT, DELETE, OPTIONS")
        ∈ (handleRequest s fs ⟨Method.OPTIONS, p⟩).1.1.headers ∧
    ("Access-Control-Allow-Headers", "Content-Type, Authorization")
        ∈ (handleRequest s fs ⟨Method.OPTIONS, p⟩).1.1.headers ∧
    ("Cache-Control", "no-cache, no-store, must-revalidate")
        ∈ (handleRequest s fs ⟨Method.OPTIONS, p⟩).1.1.headers ∧
    ∀ fs2 : Fs, (handleRequest s fs2 ⟨Method.OPTIONS, p⟩).1.1 =
      (handleRequest s fs ⟨Method.OPTIONS, p⟩).1.1 := by
  exact ⟨rfl, rfl, mem_end_headers_of_mem_cors [] _ (by decide),
    mem_end_headers_of_mem_cors [] _ (by decide),
    mem_end_headers_of_mem_cors [] _ (by decide),
    mem_end_headers_of_mem_cors [] _ (by decide), fun fs2 => rfl⟩

/-- C3: a GET request whose path resolves to no existing file is answered
with status 404, and the response still carries the four fixed headers. -/
theorem get_missing_file_404 (s : ServerState) (fs : Fs) (p : String)
    (h : lookupFile fs (translate_path s.cwd p) = none) :
    (handleRequest s fs ⟨Method.GET, p⟩).1.1.status = 404 ∧
    ("Access-Control-Allow-Origin", "*")
        ∈ (handleRequest s fs ⟨Method.GET, p⟩).1.1.headers ∧
    ("Access-Control-Allow-Methods", "GET, POST, PUT, DELETE, OPTIONS")
        ∈ (handleRequest s fs ⟨Method.GET, p⟩).1.1.headers ∧
    ("Access-Control-Allow-Headers", "Content-Type, Authorization")
        ∈ (handleRequest s fs ⟨Method.GET, p⟩).1.1.headers ∧
    ("Cache-Control", "no-cache, no-store, must-revalidate")
        ∈ (handleRequest s fs ⟨Method.GET, p⟩).1.1.headers := by
  have hr : (handleRequest s fs ⟨Method.GET, p⟩).1.1 =
      (send_error (requestline ⟨Method.GET, p⟩) 404 "File not found").1 := by
    show (do_GET s.cwd fs (requestline ⟨Method.GET, p⟩) p).1 = _
    unfold do_GET
    rw [h]
  rw [hr]
  refine ⟨rfl, ?_, ?_, ?_, ?_⟩ <;>
    exact mem_end_headers_of_mem_cors _ _ (by decide)

/-- Concrete instance discharging get_missing_file_404's hypothesis: the
empty tree has no file for /nope.html, and the response is a 404. -/
theorem get_missing_file_404_witness :
    lookupFile ([] : Fs) (translate_path "/srv" "/nope.html") = none ∧
    (handleRequest ⟨"/srv"⟩ [] ⟨Method.GET, "/nope.html"⟩).1.1.status = 404 :=
  ⟨rfl, (get_missing_file_404 ⟨"/srv"⟩ [] "/nope.html" rfl).1⟩

/-- C4: with no CLI argument the bound port is 8080; with the single
argument "9090" it is 9090; in general, whenever the first argument parses
as an integer, that integer is the port the listening socket is bound to. -/
theorem port_selection (d : String) (i : Bool) :
    Event.bind 8080 ∈ (mainRun d [] i).1 ∧
    Event.bind 9090 ∈ (mainRun d ["9090"] i).1 ∧
    ∀ (a : String) (rest : List String) (p : Int),
      pythonInt a = some p → Event.bind p ∈ (mainRun d (a :: rest) i).1 := by
  refine ⟨List.Mem.tail _ (List.Mem.head _),
    List.Mem.tail _ (List.Mem.head _), ?_⟩
  intro a rest p h
  simp only [mainRun, h]
  exact List.Mem.tail _ (List.Mem.head _)

/-- Concrete instance discharging port_selection's hypothesis: "9090"
parses to 9090 and Event.bind 9090 is in the startup trace. -/
theorem port_selection_witness :
    pythonInt "9090" = some 9090 ∧
    Event.bind 9090 ∈ (mainRun "/srv" ["9090"] true).1 :=
  ⟨by decide, (port_selection "/srv" true).2.2 "9090" [] 9090 (by decide)⟩

/-- C5: an unparseable first argument makes int() raise before run_server is
entered: no process effect happens (in particular no socket is ever bound)
and the interpreter terminates with a non-zero exit status. -/
theorem invalid_port_argument (d a : String) (rest : List String) (i : Bool)
    (h : pythonInt a = none) :
    (mainRun d (a :: rest) i).1 = [] ∧
    (∀ q : Int, Event.bind q ∉ (mainRun d (a :: rest) i).1) ∧
    ∃ c : Nat, (mainRun d (a :: rest) i).2 = Termination.exitCode c ∧
      c ≠ 0 := by
  have h1 : mainRun d (a :: rest) i = ([], Termination.exitCode 1) := by
    simp only [mainRun, h]
  refine ⟨by rw [h1], ?_, 1, by rw [h1], by decide⟩
  intro q hq
  rw [h1] at hq
  simp at hq

/-- Concrete instance discharging invalid_port_argument's hypothesis: the
argument "abc" does not parse, the trace is empty, and the exit status is
non-zero. -/
theorem invalid_port_argument_witness :
    pythonInt "abc" = none ∧
    (mainRun "/srv" ["abc"] false).1 = [] ∧
    ∃ c : Nat, (mainRun "/srv" ["abc"] false).2 = Termination.exitCode c ∧
      c ≠ 0 :=
  ⟨by decide, (invalid_port_argument "/srv" "abc" [] false (by decide)).1,
   (invalid_port_argument "/srv" "abc" [] false (by decide)).2.2⟩

/-- C6: run_server performs os.chdir to the script's own directory strictly
before binding the listening socket, and a GET request handled in the
resulting state resolves its path against the script's directory (the
lookup key is the script directory joined with the request path), not
against the caller's working directory. -/
theorem chdir_before_bind (d : String) (port : Int) (i : Bool) :
    (run_server d port i).take 2 = [Event.chdir d, Event.bind port] ∧
    startupState d = { cwd := d } ∧
    ∀ (fs : Fs) (p : String),
      (handleRequest (startupState d) fs ⟨Method.GET, p⟩).1.1 =
        (do_GET d fs (requestline ⟨Method.GET, p⟩) p).1 := by
  exact ⟨rfl, rfl, fun fs p => rfl⟩

/-- C7: when the serve loop is ended by a KeyboardInterrupt, the server
prints the stop notice, calls shutdown (no further connections accepted),
closes the listening socket, and the process exits with status 0. -/
theorem interrupt_clean_shutdown (d : String) (port : Int) :
    run_server d port true =
      [Event.chdir d, Event.bind port, Event.print (banner port),
       Event.serveForever, Event.print "\n\nServer stopped.",
       Event.shutdownServer, Event.closeSocket] ∧
    (mainRun d [] true).2 = Termination.exitCode 0 :=
  ⟨rfl, rfl⟩

/-- C9: request handling is deterministic and leaves the server state
untouched, so repeating the same GET request against an unchanged
filesystem yields a byte-identical body and an identical header list. -/
theorem get_repeat_identical (s : ServerState) (fs : Fs) (req : Request)
    (p : String) :
    (handleRequest s fs req).2 = s ∧
    (handleRequest (handleRequest s fs ⟨Method.GET, p⟩).2 fs
        ⟨Method.GET, p⟩).1.1.body =
      (handleRequest s fs ⟨Method.GET, p⟩).1.1.body ∧
    (handleRequest (handleRequest s fs ⟨Method.GET, p⟩).2 fs
        ⟨Method.GET, p⟩).1.1.headers =
      (handleRequest s fs ⟨Method.GET, p⟩).1.1.headers ∧
    (handleRequest (handleRequest s fs ⟨Method.GET, p⟩).2 fs
        ⟨Method.GET, p⟩).1.1 =
      (handleRequest s fs ⟨Method.GET, p⟩).1.1 :=
  ⟨rfl, rfl, rfl, rfl⟩

/-- C10: do_OPTIONS reads neither the request path nor the filesystem: any
two OPTIONS requests, whatever their paths, filesystems and server states,
get the same response, and that response has status 200 (never 404), even
for a path with no file behind it. -/
theorem options_ignores_path_and_fs (s1 s2 : ServerState) (fs1 fs2 : Fs)
    (p1 p2 : String) :
    (handleRequest s1 fs1 ⟨Method.OPTIONS, p1⟩).1.1 =
      (handleRequest s2 fs2 ⟨Method.OPTIONS, p2⟩).1.1 ∧
    (handleRequest s1 fs1 ⟨Method.OPTIONS, p1⟩).1.1.status = 200 ∧
    lookupFile ([] : Fs) (translate_path s1.cwd p1) = none ∧
    (handleRequest s1 ([] : Fs) ⟨Method.OPTIONS, p1⟩).1.1.status ≠ 404 :=
  ⟨rfl, rfl, rfl,
   fun hc => absurd (show (200 : Nat) = 404 from hc) (by decide)⟩

/-- A do_GET dispatch buffers one log payload on a hit (status 200) and two
on a miss (status 404: the error line, then the request line). -/
lemma do_GET_log_count (cwd : String) (fs : Fs) (rline p : String) :
    ((do_GET cwd fs rline p).2.length = 1 ∧
      (do_GET cwd fs rline p).1.status = 200) ∨
    ((do_GET cwd fs rline p).2.length = 2 ∧
      (do_GET cwd fs rline p).1.status = 404) := by
  unfold do_GET
  cases lookupFile fs (translate_path cwd p) with
  | some bs => exact Or.inl ⟨rfl, rfl⟩
  | none => exact Or.inr ⟨rfl, rfl⟩

/-- Every dispatch buffers one log payload when the response status is 200
and two when the response went through send_error. -/
lemma handleRequest_log_count (s : ServerState) (fs : Fs) (req : Request) :
    ((handleRequest s fs req).1.2.length = 1 ∧
      (handleRequest s fs req).1.1.status = 200) ∨
    ((handleRequest s fs req).1.2.length = 2 ∧
      (handleRequest s fs req).1.1.status ≠ 200) := by
  obtain ⟨m, p⟩ := req
  cases m
  case GET =>
    rcases do_GET_log_count s.cwd fs (requestline ⟨Method.GET, p⟩) p with
      ⟨h1, h2⟩ | ⟨h1, h2⟩
    · exact Or.inl ⟨h1, h2⟩
    · exact Or.inr ⟨h1, fun hc => absurd (h2.symm.trans hc) (by decide)⟩
  case HEAD =>
    rcases do_GET_log_count s.cwd fs (requestline ⟨Method.HEAD, p⟩) p with
      ⟨h1, h2⟩ | ⟨h1, h2⟩
    · exact Or.inl ⟨h1, h2⟩
    · exact Or.inr ⟨h1, fun hc => absurd (h2.symm.trans hc) (by decide)⟩
  case OPTIONS => exact Or.inl ⟨rfl, rfl⟩
  case POST =>
    exact Or.inr ⟨rfl,
      fun hc => absurd (show (501 : Nat) = 200 from hc) (by decide)⟩
  case PUT =>
    exact Or.inr ⟨rfl,
      fun hc => absurd (show (501 : Nat) = 200 from hc) (by decide)⟩
  case DELETE =>
    exact Or.inr ⟨rfl,
      fun hc => absurd (show (501 : Nat) = 200 from hc) (by decide)⟩

/-- C8 (counterexample): a GET request for a missing file is a handled
request that writes two log lines, not one — send_error first logs the
error line and its send_response then logs the request line, both through
the overridden log_message. -/
theorem error_request_logs_two_lines :
    (handleConnection ⟨"/srv"⟩ [] "127.0.0.1"
        ⟨Method.GET, "/missing.html"⟩).2.2.length = 2 ∧
    (handleConnection ⟨"/srv"⟩ [] "127.0.0.1"
        ⟨Method.GET, "/missing.html"⟩).2.2.length ≠ 1 :=
  ⟨rfl, by decide⟩

/-- C8 (amended): every log line a handled request writes goes to standard
output — never standard error — in the form client address, " - ", message;
at least one line is always written, and exactly one when the response
status is 200, while a send_error response adds one preceding error line. -/
theorem request_logging_stdout (s : ServerState) (fs : Fs) (client : String)
    (req : Request) :
    (handleConnection s fs client req).2.2 =
      ((handleRequest s fs req).1.2).map
        (fun m => OutLine.stdout (client ++ " - " ++ m)) ∧
    (handleConnection s fs client req).2.2 ≠ [] ∧
    ((handleRequest s fs req).1.1.status = 200 →
      (handleConnection s fs client req).2.2.length = 1) := by
  refine ⟨rfl, ?_, ?_⟩
  · intro hnil
    have hmap : ((handleRequest s fs req).1.2).map (log_message client)
        = [] := hnil
    have hbuf : (handleRequest s fs req).1.2 = [] :=
      List.map_eq_nil_iff.mp hmap
    rcases handleRequest_log_count s fs req with ⟨h1, -⟩ | ⟨h1, -⟩ <;>
      rw [hbuf] at h1 <;> simp at h1
  · intro h200
    rcases handleRequest_log_count s fs req with ⟨h1, -⟩ | ⟨-, hne⟩
    · show (((handleRequest s fs req).1.2).map
        (log_message client)).length = 1
      rw [List.length_map]
      exact h1
    · exact absurd h200 hne

/-- Concrete instance discharging request_logging_stdout's hypothesis: a
GET for an existing file has status 200 and logs exactly one line. -/
theorem request_logging_stdout_witness :
    (handleRequest ⟨"/srv"⟩ [("/srv/a.html", [104])]
        ⟨Method.GET, "/a.html"⟩).1.1.status = 200 ∧
    (handleConnection ⟨"/srv"⟩ [("/srv/a.html", [104])] "127.0.0.1"
        ⟨Method.GET, "/a.html"⟩).2.2.length = 1 :=
  ⟨by decide, (request_logging_stdout ⟨"/srv"⟩ [("/srv/a.html", [104])]
      "127.0.0.1" ⟨Method.GET, "/a.html"⟩).2.2 (by decide)⟩

end ServeDemo
